import Mathlib

/-!
Weather lookup widget (`src/App.js`): embedding and verified properties.

The component `App` keeps five pieces of React state (`city`, `weather`, `error`,
`loading`, `suggestions`) and a lodash-debounced suggestion fetcher.  The embedding below
follows the source function by function:

* JavaScript strings are lists of characters (`Str`); the string built-ins the source
  calls (`trim`, `toLowerCase`, `indexOf`, `slice`) are defined on them;
* an `async` function is split at its `await`s into the part that runs synchronously when
  it is called (it returns the new state and the request it issues, if any) and the part
  that runs when the request settles (it takes the state found at that moment and the
  outcome of the request);
* the debounce timer is a field of the state holding the due time and the latest argument.
-/

namespace WeatherApp

/-! ## Strings -/

/-- A JavaScript string, as the list of its characters (well-formed UTF-16, no lone
surrogates).  A character of the Basic Multilingual Plane is one UTF-16 code unit, so on
such text positions and lengths are the ones JavaScript counts; a character outside the
plane is two code units in JavaScript and one position here.  The statements below that
depend on positions are evaluations on text of the plane or carry the hypothesis that the
characters are below U+0100. -/
abbrev Str := List Char

/-- The ECMAScript `WhiteSpace` and `LineTerminator` code points, which are the ones
`String.prototype.trim` strips. -/
def isWhiteSpace (c : Char) : Bool :=
  let n := c.toNat
  n == 0x09 || n == 0x0A || n == 0x0B || n == 0x0C || n == 0x0D || n == 0x20 ||
  n == 0xA0 || n == 0x1680 || (0x2000 ≤ n && n ≤ 0x200A) || n == 0x2028 ||
  n == 0x2029 || n == 0x202F || n == 0x205F || n == 0x3000 || n == 0xFEFF

/-- `s.trim()`: white space removed from both ends. -/
def trim (s : Str) : Str :=
  ((s.dropWhile isWhiteSpace).reverse.dropWhile isWhiteSpace).reverse

/-- JavaScript truthiness of a string: the empty string is the only falsy one. -/
def strTruthy (s : Str) : Bool := !s.isEmpty

/-- A text that is empty or consists of white space only. -/
def isBlank (s : Str) : Bool := s.all isWhiteSpace

/-- The lower-case mapping of one character, as `toLowerCase` applies it.  The table covers
Basic Latin, the Latin-1 Supplement and U+0130 (LATIN CAPITAL LETTER I WITH DOT ABOVE),
whose lower case is the two characters U+0069 U+0307 (the one unconditional
length-changing entry of Unicode SpecialCasing for lower case); a character outside that
range is returned as it is, also a cased letter of Latin Extended, Greek or Cyrillic, which
JavaScript does lower-case.  On text of characters below U+0100 and of U+0130 this is the
JavaScript mapping; the general statements on matching below carry the hypothesis that the
characters are below U+0100, and the evaluations are at text of that range and U+0130. -/
def lowerChar (c : Char) : Str :=
  let n := c.toNat
  if 0x41 ≤ n ∧ n ≤ 0x5A then [Char.ofNat (n + 32)]
  else if 0xC0 ≤ n ∧ n ≤ 0xDE ∧ n ≠ 0xD7 then [Char.ofNat (n + 32)]
  else if n = 0x130 then [Char.ofNat 0x69, Char.ofNat 0x307]
  else [c]

/-- `s.toLowerCase()`. -/
def toLowerCase (s : Str) : Str := s.flatMap lowerChar

/-- Whether `needle` occurs in `hay` at position 0. -/
def startsWith : Str → Str → Bool
  | _, [] => true
  | [], _ :: _ => false
  | c :: cs, d :: ds => c == d && startsWith cs ds

/-- `hay.indexOf(needle)`: the least position at which `needle` occurs in `hay`;
`none` stands for the result `-1`. -/
def indexOf : Str → Str → Option Nat
  | [], needle => if needle.isEmpty then some 0 else none
  | c :: cs, needle =>
    if startsWith (c :: cs) needle then some 0 else (indexOf cs needle).map (· + 1)

/-- `s.slice(start, stop)` for non-negative arguments. -/
def slice (s : Str) (start stop : Nat) : Str := (s.take stop).drop start

/-- `s.slice(start)` for a non-negative argument. -/
def sliceFrom (s : Str) (start : Nat) : Str := s.drop start

/-! ## `highlightMatch` -/

/-- What `highlightMatch` returns: the string itself, or the fragment
`<>{before}<span className="highlight">{marked}</span>{after}</>`. -/
inductive Highlighted where
  | plain (text : Str)
  | fragment (before marked after : Str)
  deriving DecidableEq, Repr

/-- `highlightMatch(text, query)` (App.js lines 77-87). -/
def highlightMatch (text query : Str) : Highlighted :=
  match indexOf (toLowerCase text) (toLowerCase query) with
  | none => .plain text
  | some i =>
    .fragment (slice text 0 i) (slice text i (i + query.length))
      (sliceFrom text (i + query.length))

/-- The text a `highlightMatch` result shows when React renders it as a child. -/
def Highlighted.textContent : Highlighted → Str
  | .plain t => t
  | .fragment b m a => b ++ m ++ a

/-- The string a `highlightMatch` result turns into inside a template literal: a string
stays itself, a React element is an object and becomes `[object Object]`. -/
def Highlighted.toTemplateString : Highlighted → Str
  | .plain t => t
  | .fragment _ _ _ => "[object Object]".toList

/-! ## Values, requests and responses -/

/-- A finite JavaScript number, `mantissa * 2 ^ exponent`.  The code only tests such a
number for truthiness and interpolates it into a URL. -/
structure JSNumber where
  mantissa : Int
  exponent : Int
  deriving DecidableEq, Repr

/-- Truthiness of a number: zero is falsy. -/
def JSNumber.truthy (x : JSNumber) : Bool := x.mantissa != 0

/-- Truthiness of an argument that may be `undefined` (`none`). -/
def argTruthy : Option JSNumber → Bool
  | none => false
  | some x => x.truthy

/-- A parsed JSON body, as `res.json()` resolves to it. -/
inductive JSValue where
  | null
  | bool (b : Bool)
  | number (x : JSNumber)
  | string (s : Str)
  | array (items : List JSValue)
  | object (fields : List (Str × JSValue))

/-- Truthiness test `v !== null` on a body. -/
def JSValue.isNull : JSValue → Bool
  | .null => true
  | _ => false

/-- One piece of a template literal: literal text, an interpolated string, or an
interpolated argument (a number or `undefined`), kept unformatted. -/
inductive Part where
  | lit (s : Str)
  | str (s : Str)
  | val (v : Option JSNumber)
  deriving DecidableEq, Repr

/-- A request URL, as the pieces of the template literal that builds it. -/
abbrev Url := List Part

/-- A response: the `ok` flag and what `res.json()` settles to, a parsed body or the
message of the error it throws. -/
structure Response (β : Type) where
  ok : Bool
  json : Except Str β

/-- How `await fetch(url)` settles: it throws an error with a message, or yields a
response. -/
inductive FetchOutcome (β : Type) where
  | rejected (message : Str)
  | resolved (res : Response β)

/-- A record of the geocoding response. -/
structure GeoRecord where
  name : Str
  country : Str
  state : Option Str
  lat : JSNumber
  lon : JSNumber
  deriving DecidableEq, Repr

/-- An entry of the suggestion list. -/
structure Suggestion where
  name : Str
  country : Str
  state : Str
  lat : JSNumber
  lon : JSNumber
  deriving DecidableEq, Repr

/-! ## Component state -/

/-- The five `useState` cells of `App`, and the timer of the debounced `fetchSuggestions`
(`pending`: the time at which it is due and the argument of the latest call). -/
structure AppState where
  city : Str
  weather : JSValue
  error : Str
  loading : Bool
  suggestions : List Suggestion
  pending : Option (Nat × Str)

/-- The state on first render. -/
def initialState : AppState :=
  { city := [], weather := .null, error := [], loading := false, suggestions := [],
    pending := none }

/-- The debounce wait of `fetchSuggestions`, in milliseconds. -/
def debounceWait : Nat := 300

/-! ## Suggestion flow -/

/-- The geocoding URL (App.js line 18); `key` is the API key read from the environment. -/
def geoUrl (key value : Str) : Url :=
  [.lit "http://api.openweathermap.org/geo/1.0/direct?q=".toList, .str value,
   .lit "&limit=5&appid=".toList, .str key]

/-- The mapping applied to each record (App.js lines 22-28); `item.state || ''`. -/
def toSuggestion (item : GeoRecord) : Suggestion :=
  { name := item.name
    country := item.country
    state := match item.state with
      | some s => if strTruthy s then s else []
      | none => []
    lat := item.lat
    lon := item.lon }

/-- The debounced function up to its `await` (App.js lines 14-19): state and requests
issued. -/
def fetchSuggestionsBody (key : Str) (st : AppState) (value : Str) : AppState × List Url :=
  if !strTruthy (trim value) then ({ st with suggestions := [] }, [])
  else (st, [geoUrl key value])

/-- The `try` block of a fetch: the parsed body, or the message of what is thrown
(`notOk` is the message of the error thrown on a non-`ok` response). -/
def tryFetch {β : Type} (notOk : Str) : FetchOutcome β → Except Str β
  | .rejected m => .error m
  | .resolved res => if !res.ok then .error notOk else res.json

/-- The debounced function after its request settles (App.js lines 20-31), run on the
state found at that moment.  A body that parses but is not a list of records makes
`data.map` throw inside the `try`; it is an `error` of `json` here. -/
def fetchSuggestionsSettled (st : AppState) (o : FetchOutcome (List GeoRecord)) : AppState :=
  match tryFetch "Failed to fetch suggestions".toList o with
  | .ok data => { st with suggestions := data.map toSuggestion }
  | .error _ => { st with suggestions := [] }

/-- A call `fetchSuggestions(value)` of the debounced wrapper at time `now`: it only
(re)arms the timer. -/
def fetchSuggestions (st : AppState) (now : Nat) (value : Str) : AppState :=
  { st with pending := some (now + debounceWait, value) }

/-- The timer event at time `now`: when a call is pending and due, the debounced function
runs with the latest argument. -/
def timerFires (key : Str) (st : AppState) (now : Nat) : AppState × List Url :=
  match st.pending with
  | some (due, value) =>
    if due ≤ now then fetchSuggestionsBody key { st with pending := none } value
    else (st, [])
  | none => (st, [])

/-- `handleInputChange(e)` at time `now`, with `value = e.target.value`
(App.js lines 60-64). -/
def handleInputChange (st : AppState) (now : Nat) (value : Str) : AppState × List Url :=
  (fetchSuggestions { st with city := value } now value, [])

/-! ## Weather flow -/

/-- The query part of the weather URL (App.js line 45). -/
def weatherQuery (cityName : Str) (lat lon : Option JSNumber) : Url :=
  if argTruthy lat && argTruthy lon then
    [.lit "lat=".toList, .val lat, .lit "&lon=".toList, .val lon]
  else [.lit "q=".toList, .str cityName]

/-- The weather URL (App.js line 47). -/
def weatherUrl (key cityName : Str) (lat lon : Option JSNumber) : Url :=
  [.lit "https://api.openweathermap.org/data/2.5/weather?".toList]
    ++ weatherQuery cityName lat lon
    ++ [.lit "&appid=".toList, .str key, .lit "&units=metric".toList]

/-- `fetchWeather(cityName, lat, lon)` up to its `await` (App.js lines 37-48): state and
requests issued. -/
def fetchWeather (key : Str) (st : AppState) (cityName : Str) (lat lon : Option JSNumber) :
    AppState × List Url :=
  if !strTruthy (trim cityName) then
    ({ st with error := "Please enter a city name".toList, weather := .null }, [])
  else
    ({ st with loading := true }, [weatherUrl key cityName lat lon])

/-- `fetchWeather` after its request settles (App.js lines 49-57), run on the state found
at that moment. -/
def fetchWeatherSettled (st : AppState) (o : FetchOutcome JSValue) : AppState :=
  let st1 : AppState :=
    match tryFetch "City not found".toList o with
    | .ok data => { st with weather := data, error := [] }
    | .error message => { st with error := message, weather := .null }
  { st1 with loading := false }

/-- A whole `fetchWeather` call with nothing interleaved: the synchronous part, then,
when a request was issued, its settlement with outcome `o`. -/
def fetchWeatherRun (key : Str) (st : AppState) (cityName : Str) (lat lon : Option JSNumber)
    (o : FetchOutcome JSValue) : AppState :=
  match fetchWeather key st cityName lat lon with
  | (st1, []) => st1
  | (st1, _ :: _) => fetchWeatherSettled st1 o

/-- `handleSuggestionClick(s)` (App.js lines 66-70). -/
def handleSuggestionClick (key : Str) (st : AppState) (s : Suggestion) : AppState × List Url :=
  let st1 : AppState :=
    { st with city := s.name ++ (if strTruthy s.state then ", ".toList ++ s.state else [])
                        ++ ", ".toList ++ s.country }
  let st2 : AppState := { st1 with suggestions := [] }
  fetchWeather key st2 s.name (some s.lat) (some s.lon)

/-- `handleSearch(e)` (App.js lines 72-75): `fetchWeather(city)`, coordinates
`undefined`. -/
def handleSearch (key : Str) (st : AppState) : AppState × List Url :=
  fetchWeather key st st.city none none

/-! ## Rendering of a suggestion item -/

/-- The children of the `<li>` of one suggestion (App.js lines 108-109): the highlighted
name, the region segment (a string built by a template literal), the text `, ` and the
country. -/
def suggestionItem (s : Suggestion) (city : Str) : List Highlighted :=
  [ highlightMatch s.name city,
    .plain (if strTruthy s.state then
        ", ".toList ++ (highlightMatch s.state city).toTemplateString else []),
    .plain ", ".toList,
    .plain s.country ]

/-- The text content of a rendered suggestion item. -/
def itemText (s : Suggestion) (city : Str) : Str :=
  (suggestionItem s city).flatMap Highlighted.textContent

/-- The texts inside `<span className="highlight">` in a list of children. -/
def highlightedSpans : List Highlighted → List Str
  | [] => []
  | .plain _ :: rest => highlightedSpans rest
  | .fragment _ m _ :: rest => m :: highlightedSpans rest

/-- The list rendered under the input (App.js lines 100-113): one item per suggestion. -/
def renderSuggestions (st : AppState) : List (List Highlighted) :=
  st.suggestions.map (fun s => suggestionItem s st.city)

/-! ## Case-insensitive occurrence, for the statements on `highlightMatch` -/

/-- The single character `lowerChar` yields for a character of its one-to-one range. -/
def lowerOne (c : Char) : Char := (lowerChar c).headD c

/-- The query occurs in the text at position `i` up to letter case: the `query.length`
characters of the text from position `i` on exist and have the lower case of the query. -/
def occursAt (text query : Str) (i : Nat) : Bool :=
  decide (i + query.length ≤ text.length)
    && (toLowerCase (slice text i (i + query.length)) == toLowerCase query)

/-! ## Predicates used in the statements -/

/-- Exactly one of the weather report and the error message is populated: the report is
not `null` and the message is empty, or the report is `null` and the message is not
empty. -/
def exactlyOnePopulated (st : AppState) : Bool :=
  (!st.weather.isNull && st.error.isEmpty) || (st.weather.isNull && !st.error.isEmpty)

/-- The request succeeded: `fetch` resolved, the response is `ok` and its body parsed. -/
def FetchOutcome.succeeded {β : Type} : FetchOutcome β → Bool
  | .resolved ⟨true, .ok _⟩ => true
  | _ => false

/-- The outcome carries something to show: on success a body that is not `null`, on a
thrown error a message that is not empty. -/
def FetchOutcome.carriesContent : FetchOutcome JSValue → Bool
  | .rejected m => !m.isEmpty
  | .resolved ⟨false, _⟩ => true
  | .resolved ⟨true, .ok data⟩ => !data.isNull
  | .resolved ⟨true, .error m⟩ => !m.isEmpty

/-- Both coordinates are present (not `undefined`) and truthy (not zero). -/
def coordsPresentTruthy (lat lon : Option JSNumber) : Prop :=
  ∃ la lo : JSNumber, lat = some la ∧ lon = some lo ∧ la.mantissa ≠ 0 ∧ lo.mantissa ≠ 0

/-- A state showing a report, with a weather fetch in flight and one suggestion listed. -/
def busyState : AppState :=
  { city := "London".toList
    weather := .object [("name".toList, .string "London".toList)]
    error := []
    loading := true
    suggestions := [⟨"London".toList, "GB".toList, [], ⟨103, -1⟩, ⟨-1, -3⟩⟩]
    pending := none }

end WeatherApp

namespace WeatherApp

/-! ## Lemmas on the string built-ins -/

theorem trim_eq_nil_iff (s : Str) : trim s = [] ↔ isBlank s = true := by
  unfold trim isBlank
  rw [List.reverse_eq_nil_iff, List.dropWhile_eq_nil_iff]
  constructor
  · intro h
    by_contra hb
    have hne : s.dropWhile isWhiteSpace ≠ [] := by
      intro h0
      rw [List.dropWhile_eq_nil_iff] at h0
      exact hb (List.all_eq_true.mpr h0)
    obtain ⟨c, cs, hcs⟩ := List.exists_cons_of_ne_nil hne
    have hc : isWhiteSpace c = true := by
      apply h
      rw [List.mem_reverse, hcs]
      exact List.mem_cons_self _ _
    have hhead := List.head_dropWhile_not isWhiteSpace s hne
    simp only [hcs, List.head_cons] at hhead
    rw [hc] at hhead
    exact absurd hhead (by decide)
  · intro h c hc
    have h1 : s.dropWhile isWhiteSpace = [] := by
      rw [List.dropWhile_eq_nil_iff]
      exact List.all_eq_true.mp h
    rw [h1] at hc
    simp at hc

theorem strTruthy_trim (s : Str) : strTruthy (trim s) = !isBlank s := by
  cases hb : isBlank s
  · have : trim s ≠ [] := fun h => by
      rw [trim_eq_nil_iff, hb] at h
      exact absurd h (by decide)
    cases ht : trim s with
    | nil => exact absurd ht this
    | cons c cs => rfl
  · have : trim s = [] := (trim_eq_nil_iff s).mpr hb
    rw [this]
    rfl

theorem startsWith_iff (hay needle : Str) :
    startsWith hay needle = true ↔ ∃ r, hay = needle ++ r := by
  induction needle generalizing hay with
  | nil => cases hay <;> simp [startsWith]
  | cons d ds ih =>
    cases hay with
    | nil => simp [startsWith]
    | cons c cs =>
      simp only [startsWith, Bool.and_eq_true, beq_iff_eq, ih, List.cons_append,
        List.cons.injEq]
      constructor
      · rintro ⟨rfl, r, rfl⟩
        exact ⟨r, rfl, rfl⟩
      · rintro ⟨r, rfl, rfl⟩
        exact ⟨rfl, r, rfl⟩

theorem indexOf_some (hay needle : Str) (i : Nat) (h : indexOf hay needle = some i) :
    startsWith (hay.drop i) needle = true ∧ i ≤ hay.length
      ∧ ∀ j, j < i → startsWith (hay.drop j) needle = false := by
  induction hay generalizing i with
  | nil =>
    cases needle with
    | nil =>
      simp only [indexOf, List.isEmpty_nil, if_true, Option.some.injEq] at h
      subst h
      exact ⟨rfl, Nat.le_refl _, fun j hj => absurd hj (Nat.not_lt_zero j)⟩
    | cons d ds => simp [indexOf] at h
  | cons c cs ih =>
    unfold indexOf at h
    by_cases hs : startsWith (c :: cs) needle = true
    · rw [if_pos hs] at h
      cases h
      exact ⟨hs, Nat.zero_le _, fun j hj => absurd hj (Nat.not_lt_zero j)⟩
    · rw [if_neg hs] at h
      cases hk : indexOf cs needle with
      | none => simp [hk] at h
      | some k =>
        simp only [hk, Option.map_some', Option.some.injEq] at h
        subst h
        obtain ⟨h1, h2, h3⟩ := ih k hk
        refine ⟨by simpa using h1, by simpa using h2, ?_⟩
        intro j hj
        cases j with
        | zero => simpa using hs
        | succ j => simpa using h3 j (by omega)

theorem indexOf_none (hay needle : Str) (h : indexOf hay needle = none) (j : Nat) :
    startsWith (hay.drop j) needle = false := by
  induction hay generalizing j with
  | nil =>
    cases needle with
    | nil => simp [indexOf] at h
    | cons d ds => simp [startsWith]
  | cons c cs ih =>
    unfold indexOf at h
    by_cases hs : startsWith (c :: cs) needle = true
    · rw [if_pos hs] at h
      cases h
    · rw [if_neg hs] at h
      have hk : indexOf cs needle = none := by
        cases hk : indexOf cs needle with
        | none => rfl
        | some k => simp [hk] at h
      cases j with
      | zero => simpa using hs
      | succ j => simpa using ih hk j

theorem slice_parts (text : Str) (i n : Nat) :
    slice text 0 i ++ slice text i (i + n) ++ sliceFrom text (i + n) = text := by
  unfold slice sliceFrom
  have h1 : List.take i text = List.take i (List.take (i + n) text) := by
    rw [List.take_take]
    congr 1
    omega
  rw [List.drop_zero, h1, List.take_append_drop, List.take_append_drop]

theorem highlightMatch_textContent (text query : Str) :
    (highlightMatch text query).textContent = text := by
  unfold highlightMatch
  split
  · rfl
  · exact slice_parts text _ _

theorem lowerChar_single (c : Char) (h : c.toNat ≠ 0x130) : lowerChar c = [lowerOne c] := by
  unfold lowerOne lowerChar
  simp only
  split_ifs <;> simp_all

theorem toLowerCase_eq_map (s : Str) (h : ∀ c ∈ s, c.toNat ≠ 0x130) :
    toLowerCase s = s.map lowerOne := by
  induction s with
  | nil => rfl
  | cons c cs ih =>
    have hc := lowerChar_single c (h c (List.mem_cons_self _ _))
    have := ih (fun d hd => h d (List.mem_cons_of_mem _ hd))
    unfold toLowerCase at this ⊢
    simp [List.flatMap_cons, hc, this]

theorem slice_mem (text : Str) (i k : Nat) (c : Char) (h : c ∈ slice text i k) : c ∈ text :=
  List.mem_of_mem_take (List.mem_of_mem_drop h)

theorem map_slice (text : Str) (i n : Nat) :
    (slice text i (i + n)).map lowerOne = ((text.map lowerOne).drop i).take n := by
  unfold slice
  rw [List.map_drop, List.map_take, List.drop_take]
  congr 1
  omega

/-! ## Weather flow -/

theorem fetchWeather_of_blank (key : Str) (st : AppState) (cityName : Str)
    (lat lon : Option JSNumber) (h : isBlank cityName = true) :
    fetchWeather key st cityName lat lon
      = ({ st with error := "Please enter a city name".toList, weather := .null }, []) := by
  simp [fetchWeather, strTruthy_trim, h]

theorem fetchWeather_of_not_blank (key : Str) (st : AppState) (cityName : Str)
    (lat lon : Option JSNumber) (h : isBlank cityName = false) :
    fetchWeather key st cityName lat lon
      = ({ st with loading := true }, [weatherUrl key cityName lat lon]) := by
  simp [fetchWeather, strTruthy_trim, h]

theorem fetchWeatherRun_of_not_blank (key : Str) (st : AppState) (cityName : Str)
    (lat lon : Option JSNumber) (o : FetchOutcome JSValue) (h : isBlank cityName = false) :
    fetchWeatherRun key st cityName lat lon o
      = fetchWeatherSettled { st with loading := true } o := by
  simp [fetchWeatherRun, fetchWeather_of_not_blank key st cityName lat lon h]

theorem fetchWeatherRun_of_blank (key : Str) (st : AppState) (cityName : Str)
    (lat lon : Option JSNumber) (o : FetchOutcome JSValue) (h : isBlank cityName = true) :
    fetchWeatherRun key st cityName lat lon o
      = { st with error := "Please enter a city name".toList, weather := .null } := by
  simp [fetchWeatherRun, fetchWeather_of_blank key st cityName lat lon h]

theorem fetchWeatherSettled_loading (st : AppState) (o : FetchOutcome JSValue) :
    (fetchWeatherSettled st o).loading = false := rfl

/-- C2: when the city text is empty or white space only, `fetchWeather` issues no request,
sets the error message to "Please enter a city name" and the report to `null`, and leaves
the rest of the state as it was, whatever the prior state and the coordinates; submitting
the form (`handleSearch`) with such a text does the same. -/
theorem fetchWeather_blank_city (key : Str) (st : AppState) (cityName : Str)
    (lat lon : Option JSNumber) (h : isBlank cityName = true) :
    (fetchWeather key st cityName lat lon).2 = []
    ∧ (fetchWeather key st cityName lat lon).1
        = { st with error := "Please enter a city name".toList, weather := .null }
    ∧ (handleSearch key { st with city := cityName }).2 = []
    ∧ (handleSearch key { st with city := cityName }).1
        = { st with city := cityName, error := "Please enter a city name".toList,
                    weather := .null } := by
  refine ⟨?_, ?_, ?_, ?_⟩
  · rw [fetchWeather_of_blank key st cityName lat lon h]
  · rw [fetchWeather_of_blank key st cityName lat lon h]
  · unfold handleSearch
    rw [fetchWeather_of_blank key _ cityName none none h]
  · unfold handleSearch
    rw [fetchWeather_of_blank key _ cityName none none h]

/-- Witness of C2: a state with a report on display, the text of two spaces. -/
theorem fetchWeather_blank_city_witness :
    isBlank "  ".toList = true
    ∧ (fetchWeather "k".toList busyState "  ".toList none none).2 = []
    ∧ (fetchWeather "k".toList busyState "  ".toList none none).1
        = { busyState with error := "Please enter a city name".toList, weather := .null }
    ∧ (handleSearch "k".toList { busyState with city := "  ".toList }).2 = []
    ∧ (handleSearch "k".toList { busyState with city := "  ".toList }).1
        = { busyState with city := "  ".toList, error := "Please enter a city name".toList,
                           weather := .null } :=
  ⟨by decide, fetchWeather_blank_city "k".toList busyState "  ".toList none none (by decide)⟩

/-- C3, as stated, fails: a request that throws an error with an empty message leaves the
report `null` and the error message empty, and a successful response whose body is `null`
does the same; in both cases neither of the two is populated. -/
theorem fetchWeather_neither_populated :
    exactlyOnePopulated
        (fetchWeatherRun "k".toList initialState "Paris".toList none none (.rejected []))
      = false
    ∧ exactlyOnePopulated
        (fetchWeatherRun "k".toList initialState "Paris".toList none none
          (.resolved ⟨true, .ok .null⟩))
      = false := by
  constructor <;> rfl

/-- C3, amended: a weather fetch with a non-blank city name issues its request, and when
it settles, on whatever state it finds, the loading flag is false; on success the report
is the response body and the error message is empty; on failure the report is `null` and
the error message is the message of the failure ("City not found" for a response that is
not `ok`).  Hence exactly one of report and error message is populated whenever the
outcome carries content (a body that is not `null`, a message that is not empty). -/
theorem fetchWeather_settled_outcome (key : Str) (st st1 : AppState) (cityName : Str)
    (lat lon : Option JSNumber) (o : FetchOutcome JSValue) (h : isBlank cityName = false) :
    (fetchWeather key st cityName lat lon).2 = [weatherUrl key cityName lat lon]
    ∧ fetchWeatherRun key st cityName lat lon o
        = fetchWeatherSettled (fetchWeather key st cityName lat lon).1 o
    ∧ (fetchWeatherSettled st1 o).loading = false
    ∧ (∀ data, o = .resolved ⟨true, .ok data⟩ →
        (fetchWeatherSettled st1 o).weather = data ∧ (fetchWeatherSettled st1 o).error = [])
    ∧ (∀ res, o = .resolved res → res.ok = false →
        (fetchWeatherSettled st1 o).weather = .null
        ∧ (fetchWeatherSettled st1 o).error = "City not found".toList)
    ∧ (∀ m, o = .rejected m ∨ o = .resolved ⟨true, .error m⟩ →
        (fetchWeatherSettled st1 o).weather = .null ∧ (fetchWeatherSettled st1 o).error = m)
    ∧ (o.carriesContent = true →
        exactlyOnePopulated (fetchWeatherSettled st1 o) = true
        ∧ ((fetchWeatherSettled st1 o).weather.isNull = !o.succeeded)
        ∧ ((fetchWeatherSettled st1 o).error.isEmpty = o.succeeded)) := by
  refine ⟨?_, ?_, rfl, ?_, ?_, ?_, ?_⟩
  · rw [fetchWeather_of_not_blank key st cityName lat lon h]
  · rw [fetchWeatherRun_of_not_blank key st cityName lat lon o h,
      fetchWeather_of_not_blank key st cityName lat lon h]
  · rintro data rfl
    exact ⟨rfl, rfl⟩
  · rintro ⟨ok, body⟩ rfl hok
    simp only at hok
    subst hok
    exact ⟨rfl, rfl⟩
  · rintro m (rfl | rfl) <;> exact ⟨rfl, rfl⟩
  · intro hc
    rcases o with m | ⟨ok, body⟩
    · cases m with
      | nil => simp [FetchOutcome.carriesContent] at hc
      | cons c cs => exact ⟨rfl, rfl, rfl⟩
    · cases ok with
      | false => exact ⟨rfl, rfl, rfl⟩
      | true =>
        cases body with
        | error m =>
          cases m with
          | nil => simp [FetchOutcome.carriesContent] at hc
          | cons c cs => exact ⟨rfl, rfl, rfl⟩
        | ok data =>
          cases data with
          | null => simp [FetchOutcome.carriesContent, JSValue.isNull] at hc
          | _ => exact ⟨rfl, rfl, rfl⟩

/-- Witness of C3 amended: the city "Paris", a response that is not `ok`, settling on a
state that shows an earlier report. -/
theorem fetchWeather_settled_outcome_witness :
    isBlank "Paris".toList = false
    ∧ (fetchWeatherSettled busyState (.resolved ⟨false, .ok .null⟩)).loading = false
    ∧ (fetchWeatherSettled busyState (.resolved ⟨false, .ok .null⟩)).error
        = "City not found".toList
    ∧ exactlyOnePopulated (fetchWeatherSettled busyState (.resolved ⟨false, .ok .null⟩))
        = true :=
  have h := fetchWeather_settled_outcome "k".toList initialState busyState "Paris".toList
    none none (.resolved ⟨false, .ok .null⟩) (by decide)
  ⟨by decide, h.2.2.1, (h.2.2.2.2.1 _ rfl rfl).2, (h.2.2.2.2.2.2 rfl).1⟩

/-- C4, as stated, fails: on the validation path for blank input `fetchWeather` does not
touch the loading flag, so with an earlier fetch in flight (loading true) the flag is
still true when the invocation returns. -/
theorem fetchWeather_blank_keeps_loading :
    busyState.loading = true
    ∧ (fetchWeather "k".toList busyState [] none none).1.loading = true
    ∧ (fetchWeatherRun "k".toList busyState [] none none (.rejected "x".toList)).loading
        = true := by
  refine ⟨rfl, rfl, rfl⟩

/-- C4, amended: for every prior state, argument and outcome, when a `fetchWeather`
invocation is over the loading flag is false if the city name is not blank (success and
failure alike, also when the settlement runs on a state changed in between), and it is
what it was before the call on the validation path for blank input. -/
theorem fetchWeather_loading_after (key : Str) (st st1 : AppState) (cityName : Str)
    (lat lon : Option JSNumber) (o : FetchOutcome JSValue) :
    (fetchWeatherRun key st cityName lat lon o).loading
        = (if isBlank cityName = true then st.loading else false)
    ∧ (fetchWeatherSettled st1 o).loading = false := by
  refine ⟨?_, rfl⟩
  cases h : isBlank cityName
  · rw [fetchWeatherRun_of_not_blank key st cityName lat lon o h]
    simp [fetchWeatherSettled_loading]
  · rw [fetchWeatherRun_of_blank key st cityName lat lon o h]
    simp

/-- C5: for a non-blank city name, `fetchWeather` issues one request whose URL is the
current-weather path, then the query, then the API key and `units=metric`; the query is
`lat=<lat>&lon=<lon>` when both coordinates are present and truthy, and `q=<cityName>`
otherwise (so it is the coordinate query exactly in the first case). -/
theorem fetchWeather_query (key : Str) (st : AppState) (cityName : Str)
    (lat lon : Option JSNumber) (h : isBlank cityName = false) :
    ∃ q : Url,
      (fetchWeather key st cityName lat lon).2
        = [[.lit "https://api.openweathermap.org/data/2.5/weather?".toList] ++ q
            ++ [.lit "&appid=".toList, .str key, .lit "&units=metric".toList]]
      ∧ ((coordsPresentTruthy lat lon
            ∧ q = [.lit "lat=".toList, .val lat, .lit "&lon=".toList, .val lon])
          ∨ (¬ coordsPresentTruthy lat lon ∧ q = [.lit "q=".toList, .str cityName])) := by
  refine ⟨weatherQuery cityName lat lon, ?_, ?_⟩
  · rw [fetchWeather_of_not_blank key st cityName lat lon h]
    rfl
  · unfold weatherQuery coordsPresentTruthy
    rcases lat with _ | la
    · right
      refine ⟨?_, by simp [argTruthy]⟩
      rintro ⟨la, lo, h1, -⟩
      cases h1
    · rcases lon with _ | lo
      · right
        refine ⟨?_, by simp [argTruthy]⟩
        rintro ⟨la, lo, -, h2, -⟩
        cases h2
      · by_cases hla : la.mantissa = 0
        · right
          refine ⟨?_, by simp [argTruthy, JSNumber.truthy, hla]⟩
          rintro ⟨a, b, h1, -, h3, -⟩
          cases h1
          exact h3 hla
        · by_cases hlo : lo.mantissa = 0
          · right
            refine ⟨?_, by simp [argTruthy, JSNumber.truthy, hlo]⟩
            rintro ⟨a, b, -, h2, -, h4⟩
            cases h2
            exact h4 hlo
          · left
            exact ⟨⟨la, lo, rfl, rfl, hla, hlo⟩, by simp [argTruthy, JSNumber.truthy, hla, hlo]⟩

/-- Witness of C5: the city "London" with the coordinates 51.5 and -0.125. -/
theorem fetchWeather_query_witness :
    isBlank "London".toList = false
    ∧ ∃ q : Url,
      (fetchWeather "k".toList initialState "London".toList (some ⟨103, -1⟩)
          (some ⟨-1, -3⟩)).2
        = [[.lit "https://api.openweathermap.org/data/2.5/weather?".toList] ++ q
            ++ [.lit "&appid=".toList, .str "k".toList, .lit "&units=metric".toList]]
      ∧ ((coordsPresentTruthy (some ⟨103, -1⟩) (some ⟨-1, -3⟩)
            ∧ q = [.lit "lat=".toList, .val (some ⟨103, -1⟩), .lit "&lon=".toList,
                    .val (some ⟨-1, -3⟩)])
          ∨ (¬ coordsPresentTruthy (some ⟨103, -1⟩) (some ⟨-1, -3⟩)
            ∧ q = [.lit "q=".toList, .str "London".toList])) :=
  ⟨by decide, fetchWeather_query "k".toList initialState "London".toList (some ⟨103, -1⟩)
    (some ⟨-1, -3⟩) (by decide)⟩

/-! ## Selection handler -/

theorem handleSuggestionClick_eq (key : Str) (st : AppState) (s : Suggestion) :
    handleSuggestionClick key st s
      = fetchWeather key
          { st with
            city := s.name ++ (if strTruthy s.state then ", ".toList ++ s.state else [])
                      ++ ", ".toList ++ s.country
            suggestions := [] }
          s.name (some s.lat) (some s.lon) := rfl

theorem fetchWeather_suggestions (key : Str) (st : AppState) (cityName : Str)
    (lat lon : Option JSNumber) :
    (fetchWeather key st cityName lat lon).1.suggestions = st.suggestions
    ∧ (fetchWeather key st cityName lat lon).1.city = st.city := by
  unfold fetchWeather
  split <;> exact ⟨rfl, rfl⟩

/-- C6, as stated, fails: for a suggestion whose name is blank, `handleSuggestionClick`
clears the list but issues no weather request at all (here with non-zero coordinates). -/
theorem handleSuggestionClick_blank_name_no_request :
    (handleSuggestionClick "k".toList busyState
        ⟨" ".toList, "GB".toList, [], ⟨103, -1⟩, ⟨-1, -3⟩⟩).2 = []
    ∧ (handleSuggestionClick "k".toList busyState
        ⟨" ".toList, "GB".toList, [], ⟨103, -1⟩, ⟨-1, -3⟩⟩).2.length ≠ 1 := by
  constructor <;> decide

/-- At a suggestion on the equator (latitude 0) the one request issued is the query by
name, not the one by coordinates. -/
theorem handleSuggestionClick_zero_latitude :
    (handleSuggestionClick "k".toList busyState
        ⟨"Quito".toList, "EC".toList, [], ⟨0, 0⟩, ⟨-157, -1⟩⟩).2
      = [[.lit "https://api.openweathermap.org/data/2.5/weather?".toList,
          .lit "q=".toList, .str "Quito".toList,
          .lit "&appid=".toList, .str "k".toList, .lit "&units=metric".toList]] := by
  decide

/-- C6, amended: for every suggestion, `handleSuggestionClick` clears the suggestion list;
when the name is not blank and latitude and longitude are both non-zero it issues exactly
one weather request, the coordinate-based one with the suggestion's latitude and
longitude; when the name is blank it issues no request. -/
theorem handleSuggestionClick_request (key : Str) (st : AppState) (s : Suggestion) :
    (handleSuggestionClick key st s).1.suggestions = []
    ∧ (isBlank s.name = true → (handleSuggestionClick key st s).2 = [])
    ∧ (isBlank s.name = false → s.lat.mantissa ≠ 0 → s.lon.mantissa ≠ 0 →
        (handleSuggestionClick key st s).2
          = [[.lit "https://api.openweathermap.org/data/2.5/weather?".toList,
              .lit "lat=".toList, .val (some s.lat), .lit "&lon=".toList, .val (some s.lon),
              .lit "&appid=".toList, .str key, .lit "&units=metric".toList]]) := by
  rw [handleSuggestionClick_eq]
  refine ⟨?_, ?_, ?_⟩
  · rw [(fetchWeather_suggestions _ _ _ _ _).1]
  · intro h
    rw [fetchWeather_of_blank _ _ _ _ _ h]
  · intro h hla hlo
    rw [fetchWeather_of_not_blank _ _ _ _ _ h]
    simp [weatherUrl, weatherQuery, argTruthy, JSNumber.truthy, hla, hlo]

/-- Witness of C6 amended: London at 51.5, -0.125, clicked in a state that lists it. -/
theorem handleSuggestionClick_request_witness :
    isBlank "London".toList = false
    ∧ (handleSuggestionClick "k".toList busyState
        ⟨"London".toList, "GB".toList, [], ⟨103, -1⟩, ⟨-1, -3⟩⟩).1.suggestions = []
    ∧ (handleSuggestionClick "k".toList busyState
        ⟨"London".toList, "GB".toList, [], ⟨103, -1⟩, ⟨-1, -3⟩⟩).2
      = [[.lit "https://api.openweathermap.org/data/2.5/weather?".toList,
          .lit "lat=".toList, .val (some ⟨103, -1⟩), .lit "&lon=".toList,
          .val (some ⟨-1, -3⟩),
          .lit "&appid=".toList, .str "k".toList, .lit "&units=metric".toList]] :=
  have h := handleSuggestionClick_request "k".toList busyState
    ⟨"London".toList, "GB".toList, [], ⟨103, -1⟩, ⟨-1, -3⟩⟩
  ⟨by decide, h.1, h.2.2 (by decide) (by decide) (by decide)⟩

/-- C7: after `handleSuggestionClick(s)` the query text is `name, state, country` when the
state is not empty and `name, country` when it is empty, and the suggestion list is
empty; for London, GB with no state the query text is "London, GB". -/
theorem handleSuggestionClick_city (key : Str) (st : AppState) (s : Suggestion)
    (lat lon : JSNumber) :
    (handleSuggestionClick key st s).1.city
        = (if s.state = [] then s.name ++ ", ".toList ++ s.country
           else s.name ++ ", ".toList ++ s.state ++ ", ".toList ++ s.country)
    ∧ (handleSuggestionClick key st s).1.suggestions = []
    ∧ (handleSuggestionClick key st ⟨"London".toList, "GB".toList, [], lat, lon⟩).1.city
        = "London, GB".toList := by
  refine ⟨?_, ?_, ?_⟩
  · rw [handleSuggestionClick_eq, (fetchWeather_suggestions _ _ _ _ _).2]
    cases hs : s.state with
    | nil => simp [strTruthy]
    | cons c cs => simp [strTruthy]
  · rw [handleSuggestionClick_eq, (fetchWeather_suggestions _ _ _ _ _).1]
  · rw [handleSuggestionClick_eq, (fetchWeather_suggestions _ _ _ _ _).2]
    rfl

/-! ## Suggestion flow -/

/-- C8, as stated, fails: a successful geocoding response of six records stores six
suggestions, not `min 6 5 = 5`; the code does not truncate the list. -/
theorem fetchSuggestions_six_records :
    (fetchSuggestionsSettled initialState
        (.resolved ⟨true, .ok (List.replicate 6
          ⟨"Springfield".toList, "US".toList, none, ⟨1, 5⟩, ⟨-3, 5⟩⟩)⟩)).suggestions.length
      = 6
    ∧ (fetchSuggestionsSettled initialState
        (.resolved ⟨true, .ok (List.replicate 6
          ⟨"Springfield".toList, "US".toList, none, ⟨1, 5⟩, ⟨-3, 5⟩⟩)⟩)).suggestions.length
      ≠ min 6 5 := by
  constructor <;> decide

theorem fetchSuggestionsSettled_ok (st : AppState) (data : List GeoRecord) :
    fetchSuggestionsSettled st (.resolved ⟨true, .ok data⟩)
      = { st with suggestions := data.map toSuggestion } := rfl

theorem toSuggestion_state (item : GeoRecord) :
    (toSuggestion item).state = item.state.getD [] := by
  unfold toSuggestion
  rcases item with ⟨n, c, _ | r, la, lo⟩
  · rfl
  · cases r with
    | nil => rfl
    | cons a as => rfl

/-- C8, amended: the geocoding request for a non-blank text asks for `limit=5`, and for
every successful geocoding response the suggestion list stored has as many entries as the
response has records (hence `min n 5` entries whenever the server honours the requested
limit, `n ≤ 5`), in the same order; each entry copies name, country, latitude and
longitude of its record, and its region is the record's state when present and the empty
string when absent. -/
theorem fetchSuggestions_stored (key : Str) (st : AppState) (value : Str)
    (data : List GeoRecord) :
    (isBlank value = false →
      (fetchSuggestionsBody key st value).2
        = [[.lit "http://api.openweathermap.org/geo/1.0/direct?q=".toList, .str value,
            .lit "&limit=5&appid=".toList, .str key]])
    ∧ (fetchSuggestionsSettled st (.resolved ⟨true, .ok data⟩)).suggestions.length
        = data.length
    ∧ (data.length ≤ 5 →
        (fetchSuggestionsSettled st (.resolved ⟨true, .ok data⟩)).suggestions.length
          = min data.length 5)
    ∧ (∀ i (item : GeoRecord), data.get? i = some item →
        ∃ s : Suggestion,
          (fetchSuggestionsSettled st (.resolved ⟨true, .ok data⟩)).suggestions.get? i
            = some s
          ∧ s.name = item.name ∧ s.country = item.country
          ∧ s.lat = item.lat ∧ s.lon = item.lon
          ∧ (∀ r, item.state = some r → s.state = r)
          ∧ (item.state = none → s.state = [])) := by
  rw [fetchSuggestionsSettled_ok]
  refine ⟨fun h => by simp [fetchSuggestionsBody, strTruthy_trim, h, geoUrl], by simp,
    fun h => by simpa using h, ?_⟩
  intro i item hi
  refine ⟨toSuggestion item, by simp [List.get?_eq_getElem?, List.getElem?_map] at hi ⊢; simp [hi],
    rfl, rfl, rfl, rfl, ?_, ?_⟩
  · intro r hr
    rw [toSuggestion_state, hr]
    rfl
  · intro hr
    rw [toSuggestion_state, hr]
    rfl

/-- Witness of C8 amended: a response of two records, one with a state and one without. -/
theorem fetchSuggestions_stored_witness :
    isBlank "Par".toList = false
    ∧ (fetchSuggestionsBody "k".toList busyState "Par".toList).2
        = [[.lit "http://api.openweathermap.org/geo/1.0/direct?q=".toList,
            .str "Par".toList, .lit "&limit=5&appid=".toList, .str "k".toList]]
    ∧ (fetchSuggestionsSettled busyState
        (.resolved ⟨true, .ok [⟨"Paris".toList, "FR".toList, none, ⟨3, 4⟩, ⟨1, 1⟩⟩,
          ⟨"Paris".toList, "US".toList, some "Texas".toList, ⟨33, 0⟩, ⟨-95, 0⟩⟩]⟩)
      ).suggestions.length = min 2 5
    ∧ ∃ s : Suggestion,
      (fetchSuggestionsSettled busyState
        (.resolved ⟨true, .ok [⟨"Paris".toList, "FR".toList, none, ⟨3, 4⟩, ⟨1, 1⟩⟩,
          ⟨"Paris".toList, "US".toList, some "Texas".toList, ⟨33, 0⟩, ⟨-95, 0⟩⟩]⟩)
      ).suggestions.get? 1 = some s
      ∧ s.state = "Texas".toList :=
  have h := fetchSuggestions_stored "k".toList busyState "Par".toList
    [⟨"Paris".toList, "FR".toList, none, ⟨3, 4⟩, ⟨1, 1⟩⟩,
     ⟨"Paris".toList, "US".toList, some "Texas".toList, ⟨33, 0⟩, ⟨-95, 0⟩⟩]
  ⟨by decide, h.1 (by decide), h.2.2.1 (by decide),
    (h.2.2.2 1 ⟨"Paris".toList, "US".toList, some "Texas".toList, ⟨33, 0⟩, ⟨-95, 0⟩⟩
      rfl).elim
      fun s hs => ⟨s, hs.1, hs.2.2.2.2.2.1 _ rfl⟩⟩

/-- C9, as stated, fails: right after an input-change event with blank text the
suggestion list is what it was (here one entry); the handler only stores the text and
arms the debounce timer. -/
theorem handleInputChange_blank_keeps_suggestions :
    (handleInputChange busyState 1000 " ".toList).1.suggestions
      = [⟨"London".toList, "GB".toList, [], ⟨103, -1⟩, ⟨-1, -3⟩⟩]
    ∧ (handleInputChange busyState 1000 " ".toList).1.suggestions ≠ []
    ∧ (handleInputChange busyState 1000 " ".toList).1.pending
      = some (1300, " ".toList) := by
  refine ⟨by decide, by decide, by decide⟩

theorem fetchSuggestionsBody_blank (key : Str) (st : AppState) (value : Str)
    (h : isBlank value = true) :
    fetchSuggestionsBody key st value = ({ st with suggestions := [] }, []) := by
  simp [fetchSuggestionsBody, strTruthy_trim, h]

theorem timerFires_pending (key : Str) (st1 : AppState) (due : Nat) (value : Str)
    (hp : st1.pending = some (due, value)) (t : Nat) :
    timerFires key st1 t
      = if due ≤ t then fetchSuggestionsBody key { st1 with pending := none } value
        else (st1, []) := by
  simp [timerFires, hp]

/-- C9, amended: for every input-change event at time `now` whose text is blank, the
handler issues no request and only stores the text in `city` and arms the debounce timer
for `now + 300` with that text: the suggestion list, the report, the error message and the
loading flag are what they were.  On every state in which that timer is still armed (the
state right after the event, or one changed since by settling requests, with no further
input), a timer event before `now + 300` changes nothing and issues no request, and the
timer event at or after `now + 300` issues no geocoding request, disarms the timer and
empties the suggestion list, leaving the rest of the state as it found it. -/
theorem handleInputChange_blank (key : Str) (st : AppState) (now : Nat) (value : Str)
    (h : isBlank value = true) :
    (handleInputChange st now value).2 = []
    ∧ (handleInputChange st now value).1
        = { st with city := value, pending := some (now + 300, value) }
    ∧ (handleInputChange st now value).1.city = value
    ∧ (handleInputChange st now value).1.suggestions = st.suggestions
    ∧ (handleInputChange st now value).1.weather = st.weather
    ∧ (handleInputChange st now value).1.error = st.error
    ∧ (handleInputChange st now value).1.loading = st.loading
    ∧ (handleInputChange st now value).1.pending = some (now + 300, value)
    ∧ (∀ st1 : AppState, st1.pending = some (now + 300, value) →
        (∀ t, t < now + 300 → timerFires key st1 t = (st1, []))
        ∧ (∀ t, now + 300 ≤ t →
            timerFires key st1 t = ({ st1 with pending := none, suggestions := [] }, [])))
    ∧ (∀ t, t < now + 300 →
        timerFires key (handleInputChange st now value).1 t
          = ((handleInputChange st now value).1, []))
    ∧ (∀ t, now + 300 ≤ t →
        (timerFires key (handleInputChange st now value).1 t).2 = []
        ∧ (timerFires key (handleInputChange st now value).1 t).1.suggestions = []) := by
  have hgen : ∀ st1 : AppState, st1.pending = some (now + 300, value) →
      (∀ t, t < now + 300 → timerFires key st1 t = (st1, []))
      ∧ (∀ t, now + 300 ≤ t →
          timerFires key st1 t = ({ st1 with pending := none, suggestions := [] }, [])) := by
    intro st1 hp
    constructor
    · intro t ht
      rw [timerFires_pending key st1 _ value hp t, if_neg (by omega)]
    · intro t ht
      rw [timerFires_pending key st1 _ value hp t, if_pos ht,
        fetchSuggestionsBody_blank key _ value h]
  have hp0 : (handleInputChange st now value).1.pending = some (now + 300, value) := rfl
  refine ⟨rfl, rfl, rfl, rfl, rfl, rfl, rfl, rfl, hgen, (hgen _ hp0).1, ?_⟩
  intro t ht
  rw [(hgen _ hp0).2 t ht]
  exact ⟨rfl, rfl⟩

/-- Witness of C9 amended: the text of one space typed at time 1000 into a state that
lists one suggestion and has a weather fetch in flight; that fetch settles with a failure
before the timer event at time 1300, which then empties the list. -/
theorem handleInputChange_blank_witness :
    isBlank " ".toList = true
    ∧ (handleInputChange busyState 1000 " ".toList).2 = []
    ∧ (handleInputChange busyState 1000 " ".toList).1
        = { busyState with city := " ".toList, pending := some (1300, " ".toList) }
    ∧ (handleInputChange busyState 1000 " ".toList).1.suggestions = busyState.suggestions
    ∧ (fetchWeatherSettled (handleInputChange busyState 1000 " ".toList).1
          (.rejected "Failed to fetch".toList)).pending = some (1300, " ".toList)
    ∧ timerFires "k".toList
          (fetchWeatherSettled (handleInputChange busyState 1000 " ".toList).1
            (.rejected "Failed to fetch".toList)) 1299
        = (fetchWeatherSettled (handleInputChange busyState 1000 " ".toList).1
            (.rejected "Failed to fetch".toList), [])
    ∧ timerFires "k".toList
          (fetchWeatherSettled (handleInputChange busyState 1000 " ".toList).1
            (.rejected "Failed to fetch".toList)) 1300
        = ({ fetchWeatherSettled (handleInputChange busyState 1000 " ".toList).1
              (.rejected "Failed to fetch".toList) with
              pending := none, suggestions := [] }, [])
    ∧ (timerFires "k".toList (handleInputChange busyState 1000 " ".toList).1 1300).2 = []
    ∧ (timerFires "k".toList (handleInputChange busyState 1000 " ".toList).1 1300
        ).1.suggestions = [] :=
  have h := handleInputChange_blank "k".toList busyState 1000 " ".toList (by decide)
  have g := h.2.2.2.2.2.2.2.2.1
    (fetchWeatherSettled (handleInputChange busyState 1000 " ".toList).1
      (.rejected "Failed to fetch".toList)) rfl
  ⟨by decide, h.1, h.2.1, h.2.2.2.1, rfl, g.1 1299 (by decide), g.2 1300 (by decide),
    (h.2.2.2.2.2.2.2.2.2.2 1300 (by decide)).1, (h.2.2.2.2.2.2.2.2.2.2 1300 (by decide)).2⟩

/-! ## Highlighting -/

theorem startsWith_of_occursAt (text query : Str) (j : Nat)
    (ht : ∀ c ∈ text, c.toNat ≠ 0x130) (hq : ∀ c ∈ query, c.toNat ≠ 0x130)
    (h : occursAt text query j = true) :
    startsWith ((toLowerCase text).drop j) (toLowerCase query) = true := by
  simp only [occursAt, Bool.and_eq_true, decide_eq_true_eq, beq_iff_eq] at h
  obtain ⟨hlen, heq⟩ := h
  rw [toLowerCase_eq_map _ (fun c hc => ht c (slice_mem text _ _ c hc)),
    toLowerCase_eq_map _ hq, map_slice] at heq
  rw [toLowerCase_eq_map _ ht, toLowerCase_eq_map _ hq, startsWith_iff]
  refine ⟨((text.map lowerOne).drop j).drop query.length, ?_⟩
  rw [← heq, List.take_append_drop]

theorem occursAt_of_startsWith (text query : Str) (j : Nat)
    (ht : ∀ c ∈ text, c.toNat ≠ 0x130) (hq : ∀ c ∈ query, c.toNat ≠ 0x130)
    (hj : j ≤ text.length)
    (h : startsWith ((toLowerCase text).drop j) (toLowerCase query) = true) :
    occursAt text query j = true := by
  rw [toLowerCase_eq_map _ ht, toLowerCase_eq_map _ hq, startsWith_iff] at h
  obtain ⟨r, hr⟩ := h
  have hlen : j + query.length ≤ text.length := by
    have := congrArg List.length hr
    simp only [List.length_drop, List.length_map, List.length_append] at this
    omega
  simp only [occursAt, Bool.and_eq_true, decide_eq_true_eq, beq_iff_eq]
  refine ⟨hlen, ?_⟩
  rw [toLowerCase_eq_map _ (fun c hc => ht c (slice_mem text _ _ c hc)),
    toLowerCase_eq_map _ hq, map_slice, hr]
  have : query.length = (query.map lowerOne).length := by simp
  rw [this, List.take_left]

/-- On texts and queries of Basic Latin and Latin-1 characters `highlightMatch` does what
C1 says: with no case-insensitive occurrence of the query it returns the text itself;
with one, it returns three segments whose concatenation is the text, the marked one has
the length of the query and equals it up to letter case, and the first segment ends at
the first occurrence. -/
theorem highlightMatch_latin1 (text query : Str)
    (ht : ∀ c ∈ text, c.toNat < 0x100) (hq : ∀ c ∈ query, c.toNat < 0x100) :
    ((∀ i, occursAt text query i = false) → highlightMatch text query = .plain text)
    ∧ (∀ i, occursAt text query i = true →
        ∃ b m a, highlightMatch text query = .fragment b m a
          ∧ b ++ m ++ a = text
          ∧ m.length = query.length
          ∧ toLowerCase m = toLowerCase query
          ∧ occursAt text query b.length = true
          ∧ ∀ j, j < b.length → occursAt text query j = false) := by
  have ht1 : ∀ c ∈ text, c.toNat ≠ 0x130 := fun c hc => by
    have := ht c hc
    omega
  have hq1 : ∀ c ∈ query, c.toNat ≠ 0x130 := fun c hc => by
    have := hq c hc
    omega
  have hlenT : (toLowerCase text).length = text.length := by
    rw [toLowerCase_eq_map _ ht1, List.length_map]
  have key : ∀ i0, indexOf (toLowerCase text) (toLowerCase query) = some i0 →
      highlightMatch text query
          = .fragment (slice text 0 i0) (slice text i0 (i0 + query.length))
              (sliceFrom text (i0 + query.length))
        ∧ (slice text 0 i0).length = i0
        ∧ occursAt text query i0 = true
        ∧ ∀ j, j < i0 → occursAt text query j = false := by
    intro i0 h0
    obtain ⟨h1, h2, h3⟩ := indexOf_some _ _ _ h0
    rw [hlenT] at h2
    refine ⟨by simp [highlightMatch, h0], by simp [slice, h2],
      occursAt_of_startsWith text query i0 ht1 hq1 h2 h1, ?_⟩
    intro j hj
    cases hoc : occursAt text query j with
    | false => rfl
    | true =>
      have := startsWith_of_occursAt text query j ht1 hq1 hoc
      rw [h3 j hj] at this
      cases this
  constructor
  · intro hno
    cases h0 : indexOf (toLowerCase text) (toLowerCase query) with
    | none => simp [highlightMatch, h0]
    | some i0 =>
      have := (key i0 h0).2.2.1
      rw [hno i0] at this
      cases this
  · intro i hi
    cases h0 : indexOf (toLowerCase text) (toLowerCase query) with
    | none =>
      have := startsWith_of_occursAt text query i ht1 hq1 hi
      rw [indexOf_none _ _ h0 i] at this
      cases this
    | some i0 =>
      obtain ⟨k1, k2, k3, k4⟩ := key i0 h0
      have hoc := k3
      simp only [occursAt, Bool.and_eq_true, decide_eq_true_eq, beq_iff_eq] at hoc
      refine ⟨_, _, _, k1, slice_parts text i0 query.length, ?_, hoc.2, ?_, ?_⟩
      · simp only [slice, List.length_drop, List.length_take]
        omega
      · rw [k2]
        exact k3
      · rw [k2]
        exact k4

/-- The example of the specification: "par" in "Paris" gives ("", "Par", "is"), and a
query that does not occur gives the text back. -/
theorem highlightMatch_paris :
    highlightMatch "Paris".toList "par".toList = .fragment [] "Par".toList "is".toList
    ∧ highlightMatch "Paris".toList "xy".toList = .plain "Paris".toList := by
  constructor <;> decide

/-- C1 at the text "İzmir" and the query "zm": the query occurs at position 1 up to letter
case, but `highlightMatch` returns ("İz", "mi", "r"): lower-casing "İ" gives two
characters, so the position found in the lower-cased text is one too far in the text
itself; the marked span "mi" is not the query up to case and position 2, where the first
segment ends, is not an occurrence. -/
theorem highlightMatch_dotted_capital_i :
    occursAt "İzmir".toList "zm".toList 1 = true
    ∧ toLowerCase "İzmir".toList
        = ['i', Char.ofNat 0x307, 'z', 'm', 'i', 'r']
    ∧ indexOf (toLowerCase "İzmir".toList) (toLowerCase "zm".toList) = some 2
    ∧ highlightMatch "İzmir".toList "zm".toList
        = .fragment "İz".toList "mi".toList "r".toList
    ∧ toLowerCase "mi".toList ≠ toLowerCase "zm".toList
    ∧ occursAt "İzmir".toList "zm".toList 2 = false := by
  refine ⟨by decide, by decide, by decide, by decide, by decide, by decide⟩

/-! ## Rendering of a suggestion item -/

theorem itemText_eq (s : Suggestion) (city : Str) :
    itemText s city
      = s.name
        ++ (if strTruthy s.state = true then
              ", ".toList ++ (highlightMatch s.state city).toTemplateString else [])
        ++ ", ".toList ++ s.country := by
  have h : itemText s city
      = (highlightMatch s.name city).textContent
        ++ ((if strTruthy s.state = true then
              ", ".toList ++ (highlightMatch s.state city).toTemplateString else [])
        ++ (", ".toList ++ (s.country ++ []))) := rfl
  rw [h, highlightMatch_textContent]
  simp

/-- The text of an item whose state is empty is `name, country`, whatever the query. -/
theorem itemText_no_state (s : Suggestion) (city : Str) (h : s.state = []) :
    itemText s city = s.name ++ ", ".toList ++ s.country := by
  rw [itemText_eq, h]
  simp [strTruthy]

/-- For a state and a query of Basic Latin and Latin-1 characters, the text of an item
whose state is not empty is `name, state, country` when the query does not occur in the
state up to letter case, and `name, [object Object], country` when it does. -/
theorem itemText_state (s : Suggestion) (city : Str) (h : s.state ≠ [])
    (hst : ∀ c ∈ s.state, c.toNat < 0x100) (hq : ∀ c ∈ city, c.toNat < 0x100) :
    ((∀ i, occursAt s.state city i = false) →
      itemText s city = s.name ++ ", ".toList ++ s.state ++ ", ".toList ++ s.country)
    ∧ (∀ i, occursAt s.state city i = true →
      itemText s city
        = s.name ++ ", ".toList ++ "[object Object]".toList ++ ", ".toList ++ s.country) := by
  have hs : strTruthy s.state = true := by
    cases hst : s.state with
    | nil => exact absurd hst h
    | cons c cs => rfl
  obtain ⟨h1, h2⟩ := highlightMatch_latin1 s.state city hst hq
  constructor
  · intro h0
    rw [itemText_eq, hs, h1 h0]
    simp [Highlighted.toTemplateString]
  · intro i hi
    obtain ⟨b, m, a, hf, -⟩ := h2 i hi
    rw [itemText_eq, hs, hf]
    simp [Highlighted.toTemplateString]

/-- The example of the specification: with the query "Lon", the suggestion London, GB
without state renders as "London, GB" with "Lon" as the one highlighted span. -/
theorem itemText_london (lat lon : JSNumber) :
    itemText ⟨"London".toList, "GB".toList, [], lat, lon⟩ "Lon".toList = "London, GB".toList
    ∧ highlightedSpans
        (suggestionItem ⟨"London".toList, "GB".toList, [], lat, lon⟩ "Lon".toList)
      = ["Lon".toList] := by
  constructor <;> rfl

/-- C10 at the query "New" and the suggestion New York, New York, US: the name is rendered
with "New" highlighted, but the region segment is built by a template literal from the
React element that `highlightMatch` returns, so the text content of the item is
"New York, [object Object], US" and not "New York, New York, US", and the region holds no
highlighted span. -/
theorem itemText_state_object :
    itemText ⟨"New York".toList, "US".toList, "New York".toList, ⟨5211, -7⟩, ⟨-74, 0⟩⟩
        "New".toList
      = "New York, [object Object], US".toList
    ∧ itemText ⟨"New York".toList, "US".toList, "New York".toList, ⟨5211, -7⟩, ⟨-74, 0⟩⟩
        "New".toList
      ≠ "New York, New York, US".toList
    ∧ highlightedSpans
        (suggestionItem
          ⟨"New York".toList, "US".toList, "New York".toList, ⟨5211, -7⟩, ⟨-74, 0⟩⟩
          "New".toList)
      = ["New".toList] := by
  refine ⟨by decide, by decide, by decide⟩

end WeatherApp
